import Mathlib

/-!
Shallow embedding of the icrawler-url downloader pipeline
(src/icrawler/downloader.py, src/icrawler/crawler.py) and proofs of the
specification's testable properties about it.

Conventions of the embedding:
* Python `None`/exception outcomes become `Option`/`Except`.
* A task dict becomes the `Task` structure; the only field of the URL the
  downloader reads is `urlparse(file_url).path` (urllib is an external
  collaborator), carried as `file_url_path`.
* The outbound session is an oracle `fetch : Nat → Option Resp` giving the
  outcome of the n-th `session.get` call made while processing one task
  (`none` = the call raised an exception).
* Concurrency is modelled by an explicit interleaving step relation on the
  shared pool state, with one constructor per atomic action of the source.
-/

namespace ICrawler

/-- Outcome of one decoded payload: `Image.open` either raises `OSError` or
yields a size (width, height).  Models the resource-decode collaborator used
by `ImageDownloader.keep_file`. -/
inductive DecodeResult where
  | fail : DecodeResult
  | ok (size : Nat × Nat) : DecodeResult
deriving DecidableEq, Repr

/-- A response of `session.get`, as far as `Downloader.download` inspects it:
its `status_code`, and what the payload decodes to (consumed only by the
keep-predicate). -/
structure Resp where
  status_code : Nat
  decode : DecodeResult
deriving DecidableEq, Repr

/-- A task dict flowing through the pipeline.  `file_url_path` is
`urlparse(task["file_url"]).path`; `success`, `filename` and `img_size` are
the fields the downloader stage writes. -/
structure Task where
  file_url_path : String
  success : Bool
  filename : Option String
  img_size : Option (Nat × Nat)
deriving DecidableEq, Repr

/-- Models `Downloader.reach_max_num` (downloader.py lines 76-87): true when
the shared `reach_max_num` signal flag is set, or when `max_num > 0` and the
pool's `fetched_num` has reached `max_num`. -/
def reach_max_num (signal_reach_max : Bool) (max_num : Int) (fetched_num : Nat) : Bool :=
  if signal_reach_max then true
  else if max_num > 0 && (fetched_num : Int) ≥ max_num then true
  else false

/-- Result of running `Downloader.download` on one task: the mutated task,
the pool's fetched counter, the `reach_max_num` signal flag, and the number
of `session.get` calls that were made. -/
structure DownloadResult where
  task : Task
  fetched_num : Nat
  signal_reach_max : Bool
  attempts : Nat
deriving DecidableEq, Repr

/-- The body of the retry loop of `Downloader.download` (downloader.py lines
106-135), with the remaining `retry` budget as the recursion fuel.  One
iteration performs one `session.get` (consulting `fetch` at the current
attempt index); the `finally: retry -= 1` of the source runs on every path,
so every iteration consumes one unit of fuel.  `keep` is the overridable
`keep_file` predicate (it may mutate the task); `getFilename` is the
overridable `get_filename`, applied to the post-increment counter value. -/
def downloadGo (fetch : Nat → Option Resp) (keep : Task → Resp → Bool × Task)
    (getFilename : Nat → Task → String) (max_num : Int) :
    Nat → Nat → Task → Nat → Bool → DownloadResult
  | 0, a, t, f, s => ⟨t, f, s, a⟩
  | retry + 1, a, t, f, s =>
    if s then ⟨t, f, s, a⟩
    else
      match fetch a with
      | none =>
          -- exception caught: log, decrement retry, loop again
          downloadGo fetch keep getFilename max_num retry (a + 1) t f s
      | some response =>
          if reach_max_num s max_num f then
            -- self.signal.set(reach_max_num=True); break
            ⟨t, f, true, a + 1⟩
          else if response.status_code ≠ 200 then
            -- log status code; break
            ⟨t, f, s, a + 1⟩
          else
            match keep t response with
            | (false, t1) => ⟨t1, f, s, a + 1⟩
            | (true, t1) =>
                -- with self.lock: fetched_num += 1; filename = get_filename(...)
                let f1 := f + 1
                let fn := getFilename f1 t1
                ⟨{ t1 with success := true, filename := some fn }, f1, s, a + 1⟩

/-- Models `Downloader.download` (downloader.py lines 92-135): clears the
task's `success`/`filename` fields, then runs the retry loop starting from
attempt index 0 with `retry = max_retry`. -/
def download (fetch : Nat → Option Resp) (keep : Task → Resp → Bool × Task)
    (getFilename : Nat → Task → String) (max_num : Int) (max_retry : Nat)
    (t : Task) (fetched_num : Nat) (signal_reach_max : Bool) : DownloadResult :=
  downloadGo fetch keep getFilename max_num max_retry 0
    { t with success := false, filename := none } fetched_num signal_reach_max

/-- The base `Downloader.keep_file` (downloader.py lines 89-90): always keep,
never mutate. -/
def base_keep_file (t : Task) (_response : Resp) : Bool × Task := (true, t)

/-! ### Filename assignment (`get_filename`) -/

/-- Python's `f"{n:06d}"`: the decimal rendering of `n`, zero-padded to a
total width of six characters (the minus sign of a negative number counts
toward the width and precedes the padding). -/
def format06d (n : Int) : String :=
  if n ≥ 0 then
    let s := toString n.toNat
    String.mk (List.replicate (6 - s.length) '0') ++ s
  else
    let s := toString (-n).toNat
    "-" ++ String.mk (List.replicate (5 - s.length) '0') ++ s

/-- Python's `s.split(".")` on the characters of `s`: the chunks between
dots, with empty chunks kept (`"a.b.".split(".") = ["a", "b", ""]`). -/
def splitDot : List Char → List (List Char)
  | [] => [[]]
  | c :: rest =>
    match splitDot rest with
    | [] => [[]]
    | h :: tl => if c = '.' then [] :: h :: tl else (c :: h) :: tl

/-- Models `Downloader.get_filename` (downloader.py lines 57-74): the
extension is `url_path.split(".")[-1]` whenever `"." in url_path`, else
`default_ext`; the index is `fetched_num + file_idx_offset`, rendered with
`f"{file_idx:06d}"`. -/
def get_filename (fetched_num : Nat) (file_idx_offset : Int) (default_ext : String)
    (t : Task) : String :=
  let url_path := t.file_url_path
  let extension :=
    if url_path.data.contains '.' then
      String.mk ((splitDot url_path.data).getLastD default_ext.data)
    else default_ext
  format06d ((fetched_num : Int) + file_idx_offset) ++ "." ++ extension

/-- The extension whitelist of `ImageDownloader.get_filename`
(downloader.py line 248). -/
def image_extensions : List String :=
  ["jpg", "jpeg", "png", "bmp", "tiff", "gif", "ppm", "pgm"]

/-- Models `ImageDownloader.get_filename` (downloader.py lines 244-253):
like the base version, but an extension whose lowercase form (the
extensions in play are ASCII, so `str.lower` is per-character lowering) is
not in the whitelist is replaced by `default_ext`. -/
def image_get_filename (fetched_num : Nat) (file_idx_offset : Int)
    (default_ext : String) (t : Task) : String :=
  let url_path := t.file_url_path
  let extension :=
    if url_path.data.contains '.' then
      let e := (splitDot url_path.data).getLastD default_ext.data
      if image_extensions.contains (String.mk (e.map Char.toLower)) then String.mk e
      else default_ext
    else default_ext
  format06d ((fetched_num : Int) + file_idx_offset) ++ "." ++ extension

/-! ### The image keep-predicate (`ImageDownloader.keep_file`) -/

/-- Models `ImageDownloader._size_lt` (downloader.py lines 214-215) on
(width, height) pairs. -/
def size_lt (sz1 sz2 : Nat × Nat) : Bool :=
  max sz1.1 sz1.2 ≤ max sz2.1 sz2.2 && min sz1.1 sz1.2 ≤ min sz2.1 sz2.2

/-- Models `ImageDownloader._size_gt` (downloader.py lines 217-218) on
(width, height) pairs. -/
def size_gt (sz1 sz2 : Nat × Nat) : Bool :=
  max sz1.1 sz1.2 ≥ max sz2.1 sz2.2 && min sz1.1 sz1.2 ≥ min sz2.1 sz2.2

/-- Models `ImageDownloader.keep_file` (downloader.py lines 220-242): if the
payload does not decode, reject without touching the task; otherwise record
the decoded size in `task["img_size"]`, then reject when a configured
`min_size`/`max_size` bound is violated, else keep. -/
def image_keep_file (min_size max_size : Option (Nat × Nat)) (t : Task)
    (response : Resp) : Bool × Task :=
  match response.decode with
  | .fail => (false, t)
  | .ok sz =>
    let t1 := { t with img_size := some sz }
    match min_size with
    | some m =>
        if ¬ size_gt sz m then (false, t1)
        else
          match max_size with
          | some mx => if ¬ size_lt sz mx then (false, t1) else (true, t1)
          | none => (true, t1)
    | none =>
        match max_size with
        | some mx => if ¬ size_lt sz mx then (false, t1) else (true, t1)
        | none => (true, t1)

/-! ### The worker loop (`Downloader.worker_exec`), one iteration -/

/-- What the blocking `in_queue.get(timeout=queue_timeout)` produced on one
iteration of `worker_exec`: a task, a `queue.Empty` timeout, or some other
exception. -/
inductive QueueEvent where
  | gotTask : QueueEvent
  | queueEmpty : QueueEvent
  | otherExc : QueueEvent
deriving DecidableEq, Repr

/-- How one iteration of the `worker_exec` loop ended, one constructor per
distinct exit / continue path of the source. -/
inductive IterOutcome where
  /-- exit via line 178-180: the `reach_max_num` signal flag is set. -/
  | exitReachMax : IterOutcome
  /-- exit via line 182-185: idle for more than `max_idle_time` with
  `fetched_num > 0`. -/
  | exitIdle : IterOutcome
  /-- exit via line 190-192: queue timeout with `parser_exited` set. -/
  | exitParserDone : IterOutcome
  /-- exit via line 195-197: queue timeout, `parser_exited` unset, but
  `fetched_num > 0` ("no more images available"). -/
  | exitNoMoreImages : IterOutcome
  /-- continue looping (got a task and processed it, logged a wait, or
  logged an unexpected exception). -/
  | continueLoop : IterOutcome
deriving DecidableEq, Repr

/-- Models one iteration of the `worker_exec` loop (downloader.py lines
177-203), deciding whether the worker exits and why.  `now` is
`time.time()` at the top of the iteration and `last` is
`last_download_time`, which the source sets once at worker start (line 175)
and never updates; times are modelled as rationals. -/
def worker_iter (signal_reach_max parser_exited : Bool) (max_idle_time : Option ℚ)
    (now last : ℚ) (fetched_num : Nat) (ev : QueueEvent) : IterOutcome :=
  if signal_reach_max then .exitReachMax
  else if (match max_idle_time with
           | some m => decide (now - last > m) && decide (fetched_num > 0)
           | none => false) then .exitIdle
  else
    match ev with
    | .gotTask => .continueLoop
    | .otherExc => .continueLoop
    | .queueEmpty =>
        if parser_exited then .exitParserDone
        else if fetched_num = 0 then .continueLoop
        else .exitNoMoreImages

/-! ### The URL-collection variant (`URLCollector`) -/

/-- Shared state of a `URLCollector` pool: the fetched counter, the
in-memory list of accepted URLs, the contents last written to the output
file (`none` if never written), and the `reach_max_num` signal flag. -/
structure UrlcState where
  fetched_num : Nat
  urls : List String
  output_file_contents : Option (List String)
  signal_reach_max : Bool
  max_num : Int
deriving DecidableEq, Repr

/-- Models `URLCollector._save_urls` (downloader.py lines 394-401): overwrite
the output file with the whole current list. -/
def save_urls (st : UrlcState) : UrlcState :=
  { st with output_file_contents := some st.urls }

/-- The validation loop of `URLCollector.download` (downloader.py lines
365-370): `while retry > 0 and not is_valid`, one `is_valid_image_url` call
per iteration, consulting the oracle `valid` at the current attempt index.
Returns the attempts made and the final `is_valid`. -/
def urlc_validate (valid : Nat → Bool) : Nat → Nat → Bool → Nat × Bool
  | 0, a, v => (a, v)
  | retry + 1, a, v =>
      if v then (a, v)
      else urlc_validate valid retry (a + 1) (valid a)

/-- Models `URLCollector.download` (downloader.py lines 351-392): validate
the URL up to `max_retry` times; on failure mark the task failed; on success
(under the lock) increment the counter, append the URL, flush the list to
the output file on every 10th accepted item, and set the `reach_max_num`
flag when `reach_max_num` holds; then mark the task succeeded.  Returns the
mutated task, the new pool state, and the number of validation attempts. -/
def urlc_download (valid : Nat → Bool) (max_retry : Nat) (file_url : String)
    (t : Task) (st : UrlcState) : Task × UrlcState × Nat :=
  let (attempts, is_valid) := urlc_validate valid max_retry 0 false
  if ¬ is_valid then
    ({ t with success := false, filename := none }, st, attempts)
  else
    let f1 := st.fetched_num + 1
    let st1 := { st with fetched_num := f1, urls := st.urls ++ [file_url] }
    let st2 := if f1 % 10 = 0 then save_urls st1 else st1
    let st3 :=
      if reach_max_num st2.signal_reach_max st2.max_num st2.fetched_num then
        { st2 with signal_reach_max := true }
      else st2
    ({ t with success := true, filename := none }, st3, attempts)

/-- Modelled from the spec: the invocation of the collector's shutdown hook.
`URLCollector.__exit__` (downloader.py lines 403-406, which calls
`_save_urls`) is in the source, but the pipeline code that invokes it at
shutdown lives in the `ThreadPool` base / pipeline plumbing that is not
under src; the spec states the list is flushed "once more at pipeline
shutdown". -/
def urlc_shutdown (st : UrlcState) : UrlcState := save_urls st

/-- Folds `urlc_download` over a sequence of resource tasks, one accepted
URL candidate per task, each validated by its own oracle.  This is the
lock-serialized sequence of download calls a `URLCollector` pool performs
during a run. -/
def urlc_run (valid : Nat → Bool) (max_retry : Nat) (urls : List String)
    (st : UrlcState) : UrlcState :=
  urls.foldl (fun s u => (urlc_download valid max_retry u ⟨u, false, none, none⟩ s).2.1) st

/-! ### Configuration errors and thread start order (`Crawler`) -/

/-- A Python value passed as `file_idx_offset`, distinguished only as far as
`isinstance(file_idx_offset, int)` distinguishes it. -/
inductive OffsetArg where
  | int (n : Int) : OffsetArg
  | notInt : OffsetArg
deriving DecidableEq, Repr

/-- A Python value passed as `headers`, distinguished only as far as
`isinstance(headers, dict)` distinguishes it (with `None` meaning "use the
defaults"). -/
inductive HeadersArg where
  | noneArg : HeadersArg
  | dict : HeadersArg
  | notDict : HeadersArg
deriving DecidableEq, Repr

/-- The configuration errors of the system (§7 of the spec). -/
inductive ConfigError where
  | offsetNotInt : ConfigError
  | headersNotDict : ConfigError
deriving DecidableEq, Repr

/-- The three worker-pool stages. -/
inductive Stage where
  | feeder : Stage
  | parser : Stage
  | downloader : Stage
deriving DecidableEq, Repr

/-- Models `Downloader.set_file_idx_offset` (downloader.py lines 44-55):
accept an integer, raise `ValueError` otherwise. -/
def set_file_idx_offset (v : OffsetArg) : Except ConfigError Int :=
  match v with
  | .int n => .ok n
  | .notInt => .error .offsetNotInt

/-- Models `Crawler.set_session` (crawler.py lines 99-112): `None` headers
fall back to defaults, a non-dict raises `TypeError`.  It is called during
`Crawler.__init__`, before any worker thread exists. -/
def set_session (headers : HeadersArg) : Except ConfigError Unit :=
  match headers with
  | .noneArg => .ok ()
  | .dict => .ok ()
  | .notDict => .error .headersNotDict

/-- Models the thread-start order of `Crawler.crawl` (crawler.py lines
133-140) together with `Downloader.start` (downloader.py lines 149-155):
`crawl` starts the feeder threads, then the parser threads, then calls
`downloader.start`, which runs `set_file_idx_offset` before spawning and
starting the downloader workers.  Returns the stages whose worker threads
started, in order, paired with the configuration error raised, if any. -/
def crawl_start_order (offset : OffsetArg) : List Stage × Option ConfigError :=
  let started := [Stage.feeder, Stage.parser]
  match set_file_idx_offset offset with
  | .error e => (started, some e)
  | .ok _ => (started ++ [Stage.downloader], none)

/-- Models a whole run's setup: `Crawler.__init__` (which calls
`set_session`) followed by `Crawler.crawl`.  Before `crawl` is entered no
thread of any stage exists, so a headers error leaves the started-stage list
empty. -/
def run_setup (headers : HeadersArg) (offset : OffsetArg) :
    List Stage × Option ConfigError :=
  match set_session headers with
  | .error e => ([], some e)
  | .ok _ => crawl_start_order offset

/-! ### Interleaved execution of a Downloader pool

`T` worker threads run `worker_exec`/`download` concurrently against the
shared pool state.  The shared data is `fetched_num`, the `reach_max_num`
signal flag, and (as a ghost log) the list of file indices claimed under the
lock.  Each worker is, between its accesses to the shared state, in one of
two relevant positions: it has not yet passed the `reach_max_num()` check of
its current iteration (`passed i = false`), or it has passed that check and
will next run the locked increment (`passed i = true`).  The unlocked check
(line 117) and the locked increment-and-name block (lines 125-127) are the
atomic actions; everything else a worker does touches no shared data. -/

/-- Shared state of a `T`-worker Downloader pool, plus the ghost log
`claimed` of file indices assigned under the lock, in lock-acquisition
order. -/
structure PoolState (T : Nat) where
  fetched_num : Nat
  signal_reach_max : Bool
  passed : Fin T → Bool
  claimed : List Int

/-- Number of workers between their passed `reach_max_num()` check and their
locked increment. -/
def passedCount {T : Nat} (s : PoolState T) : Nat :=
  ∑ i : Fin T, (s.passed i).toNat

/-- The initial pool state at `start()` (after `clear_status`, downloader.py
lines 40-42 and 149-150): counter 0, flag false (the orchestrator's
`signal.reset`, crawler.py line 126), every worker before its check, nothing
claimed. -/
def initPool (T : Nat) : PoolState T :=
  ⟨0, false, fun _ => false, []⟩

/-- One atomic action of some worker of the pool, `max_num` and
`file_idx_offset` fixed for the run. -/
inductive PoolStep (T : Nat) (max_num file_idx_offset : Int) :
    PoolState T → PoolState T → Prop
  /-- Worker `i` runs the `reach_max_num()` check of line 117 and it returns
  false: the worker proceeds toward the locked increment.  (The loop guard
  of line 106 read the flag as false too; `reach_max_num()` false subsumes
  it.) -/
  | checkPass (i : Fin T) (s : PoolState T) (hp : s.passed i = false)
      (hmax : reach_max_num s.signal_reach_max max_num s.fetched_num = false) :
      PoolStep T max_num file_idx_offset s
        { s with passed := Function.update s.passed i true }
  /-- Worker `i` runs the `reach_max_num()` check of line 117 and it returns
  true: the worker sets the signal flag (line 118) and breaks. -/
  | checkStop (i : Fin T) (s : PoolState T) (hp : s.passed i = false)
      (hmax : reach_max_num s.signal_reach_max max_num s.fetched_num = true) :
      PoolStep T max_num file_idx_offset s { s with signal_reach_max := true }
  /-- Worker `i` passed the `reach_max_num()` check but breaks before the
  locked block: the response's status code was not 200 (line 120) or the
  keep-predicate rejected it (line 123).  No shared counter is touched. -/
  | abandon (i : Fin T) (s : PoolState T) (hp : s.passed i = true) :
      PoolStep T max_num file_idx_offset s
        { s with passed := Function.update s.passed i false }
  /-- Worker `i` runs the locked block of lines 125-127: increment
  `fetched_num` and compute the file index `fetched_num + file_idx_offset`
  from the incremented counter; the claimed index is appended to the ghost
  log.  The worker's current iteration is finished. -/
  | claim (i : Fin T) (s : PoolState T) (hp : s.passed i = true) :
      PoolStep T max_num file_idx_offset s
        { s with fetched_num := s.fetched_num + 1,
                 passed := Function.update s.passed i false,
                 claimed := s.claimed ++ [(s.fetched_num + 1 : Int) + file_idx_offset] }

/-- Reachability of a pool state from the initial state by interleaved
worker actions. -/
def PoolReachable (T : Nat) (max_num file_idx_offset : Int) (s : PoolState T) : Prop :=
  Relation.ReflTransGen (PoolStep T max_num file_idx_offset) (initPool T) s

/-- Inductive invariant behind the fetched-counter bound: the counter plus
the number of workers holding a passed check stays below `max_num +
thread_num`. -/
def fetchedInvDef (M T : Nat) (s : PoolState T) : Prop :=
  s.fetched_num + passedCount s + 1 ≤ M + T

/-- Inductive invariant behind the claimed-index ordering: the ghost log is
strictly sorted and bounded by the current counter plus offset. -/
def claimedInvDef {T : Nat} (off : Int) (s : PoolState T) : Prop :=
  List.Pairwise (· < ·) s.claimed ∧ ∀ x ∈ s.claimed, x ≤ (s.fetched_num : Int) + off

/-! ### A concrete two-worker interleaving

With `thread_num = 2` and `max_num = 1`, both workers pass the
`reach_max_num()` check while the counter is still 0, then both run the
locked increment: the final count is `2 = max_num + (thread_num - 1)`. -/

/-- State after worker 0 passes the check. -/
def psA : PoolState 2 := { initPool 2 with passed := Function.update (initPool 2).passed 0 true }

/-- State after worker 1 also passes the check. -/
def psB : PoolState 2 := { psA with passed := Function.update psA.passed 1 true }

/-- State after worker 0 claims index 1. -/
def psC : PoolState 2 := { psB with fetched_num := psB.fetched_num + 1, passed := Function.update psB.passed 0 false, claimed := psB.claimed ++ [(psB.fetched_num + 1 : Int) + 0] }

/-- State after worker 1 claims index 2. -/
def psD : PoolState 2 := { psC with fetched_num := psC.fetched_num + 1, passed := Function.update psC.passed 1 false, claimed := psC.claimed ++ [(psC.fetched_num + 1 : Int) + 0] }

/-! ### Lemmas about the interleaving model -/

theorem countTrue_le {T : Nat} (p : Fin T → Bool) :
    (∑ i : Fin T, (p i).toNat) ≤ T := by
  calc (∑ i : Fin T, (p i).toNat)
      ≤ ∑ _i : Fin T, 1 := Finset.sum_le_sum (fun i _ => by cases p i <;> simp)
    _ = T := by simp

theorem sum_update_bool {T : Nat} (p : Fin T → Bool) (i : Fin T) (b : Bool) :
    (∑ j : Fin T, (Function.update p i b j).toNat) + (p i).toNat
      = (∑ j : Fin T, (p j).toNat) + b.toNat := by
  have h1 : ∀ j : Fin T, (Function.update p i b j).toNat
      = Function.update (fun j : Fin T => (p j).toNat) i b.toNat j := by
    intro j
    by_cases hj : j = i
    · subst hj; simp [Function.update]
    · simp [Function.update, hj]
  have h2 : (∑ j : Fin T, (Function.update p i b j).toNat)
      = b.toNat + ∑ j ∈ Finset.univ \ {i}, (fun j : Fin T => (p j).toNat) j := by
    have e1 : (∑ j : Fin T, (Function.update p i b j).toNat)
        = ∑ j : Fin T, Function.update (fun j : Fin T => (p j).toNat) i b.toNat j := by
      exact Finset.sum_congr rfl (fun j _ => h1 j)
    rw [e1]
    exact Finset.sum_update_of_mem (Finset.mem_univ i) _ _
  have h3 : (fun j : Fin T => (p j).toNat) i
        + ∑ j ∈ Finset.univ.erase i, (fun j : Fin T => (p j).toNat) j
      = ∑ j : Fin T, (fun j : Fin T => (p j).toNat) j :=
    Finset.add_sum_erase Finset.univ (fun j : Fin T => (p j).toNat) (Finset.mem_univ i)
  rw [Finset.erase_eq] at h3
  simp only at h2 h3
  omega

theorem passedCount_update_true {T : Nat} (p : Fin T → Bool) (i : Fin T)
    (hp : p i = false) :
    (∑ j : Fin T, (Function.update p i true j).toNat)
      = (∑ j : Fin T, (p j).toNat) + 1 := by
  have h := sum_update_bool p i true
  rw [hp] at h
  simp only [Bool.toNat_false, Bool.toNat_true] at h
  omega

theorem passedCount_update_false {T : Nat} (p : Fin T → Bool) (i : Fin T)
    (hp : p i = true) :
    (∑ j : Fin T, (Function.update p i false j).toNat) + 1
      = (∑ j : Fin T, (p j).toNat) := by
  have h := sum_update_bool p i false
  rw [hp] at h
  simp only [Bool.toNat_false, Bool.toNat_true] at h
  omega

theorem reach_max_num_false {b : Bool} {M f : Nat} (hM : 1 ≤ M)
    (h : reach_max_num b (M : Int) f = false) : b = false ∧ f < M := by
  unfold reach_max_num at h
  by_cases hb : b
  · simp [hb] at h
  · refine ⟨by simpa using hb, ?_⟩
    by_contra hf
    push_neg at hf
    have h1 : ((M : Int) > 0) := by exact_mod_cast hM
    have h2 : ((f : Int) ≥ (M : Int)) := by exact_mod_cast hf
    simp [hb, h1, h2] at h

theorem fetchedInv_init (M T : Nat) (hM : 1 ≤ M) (hT : 1 ≤ T) :
    fetchedInvDef M T (initPool T) := by
  unfold fetchedInvDef initPool passedCount
  simp
  omega

theorem fetchedInv_step {T : Nat} {M : Nat} {off : Int} (hM : 1 ≤ M)
    {s s' : PoolState T} (h : PoolStep T (M : Int) off s s')
    (hs : fetchedInvDef M T s) : fetchedInvDef M T s' := by
  unfold fetchedInvDef passedCount at hs ⊢
  cases h with
  | checkPass i s hp hmax =>
      have hf := (reach_max_num_false hM hmax).2
      have hle := countTrue_le (Function.update s.passed i true)
      have hup := passedCount_update_true s.passed i hp
      dsimp only at hs ⊢
      omega
  | checkStop i s hp hmax =>
      dsimp only at hs ⊢
      omega
  | abandon i s hp =>
      have hup := passedCount_update_false s.passed i hp
      dsimp only at hs ⊢
      omega
  | claim i s hp =>
      have hup := passedCount_update_false s.passed i hp
      dsimp only at hs ⊢
      omega

theorem fetchedInv_reachable {T M : Nat} {off : Int} (hM : 1 ≤ M) (hT : 1 ≤ T)
    {s : PoolState T} (h : PoolReachable T (M : Int) off s) : fetchedInvDef M T s := by
  induction h with
  | refl => exact fetchedInv_init M T hM hT
  | tail _ hstep ih => exact fetchedInv_step hM hstep ih

theorem claimedInv_step {T : Nat} {mx off : Int} {s s' : PoolState T}
    (h : PoolStep T mx off s s') (hs : claimedInvDef off s) : claimedInvDef off s' := by
  obtain ⟨hpw, hbd⟩ := hs
  cases h with
  | checkPass i s hp hmax => exact ⟨hpw, hbd⟩
  | checkStop i s hp hmax => exact ⟨hpw, hbd⟩
  | abandon i s hp => exact ⟨hpw, hbd⟩
  | claim i s hp =>
      constructor
      · rw [List.pairwise_append]
        refine ⟨hpw, List.pairwise_singleton _ _, ?_⟩
        intro x hx y hy
        simp only [List.mem_singleton] at hy
        subst hy
        have := hbd x hx
        omega
      · intro x hx
        simp only [List.mem_append, List.mem_singleton] at hx
        rcases hx with hx | hx
        · have := hbd x hx
          push_cast
          omega
        · subst hx
          push_cast
          omega

theorem claimedInv_reachable {T : Nat} {mx off : Int} {s : PoolState T}
    (h : PoolReachable T mx off s) : claimedInvDef off s := by
  induction h with
  | refl => exact ⟨List.Pairwise.nil, by intro x hx; simp [initPool] at hx⟩
  | tail _ hstep ih => exact claimedInv_step hstep ih

theorem psD_reachable : PoolReachable 2 (1 : Int) 0 psD := by
  have h1 : PoolStep 2 1 0 (initPool 2) psA :=
    PoolStep.checkPass 0 (initPool 2) rfl (by decide)
  have h2 : PoolStep 2 1 0 psA psB :=
    PoolStep.checkPass 1 psA (by decide) (by decide)
  have h3 : PoolStep 2 1 0 psB psC :=
    PoolStep.claim 0 psB (by decide)
  have h4 : PoolStep 2 1 0 psC psD :=
    PoolStep.claim 1 psC (by decide)
  exact .tail (.tail (.tail (.tail .refl h1) h2) h3) h4

/-! ### The claims -/

/-- C1: for every run of a Downloader-type pool with `thread_num = T` and
configured maximum `M > 0`, the pool's fetched counter never exceeds
`M + (T - 1)` in any reachable state (in particular in the final one), for
every interleaving of the workers. -/
theorem C1_fetched_counter_bound (T M : Nat) (off : Int) (hT : 1 ≤ T) (hM : 1 ≤ M)
    (s : PoolState T) (h : PoolReachable T (M : Int) off s) :
    s.fetched_num ≤ M + (T - 1) := by
  have hinv := fetchedInv_reachable hM hT h
  unfold fetchedInvDef at hinv
  omega

/-- Witness for C1: the concrete two-worker interleaving with `max_num = 1`
reaches `fetched_num = 2`, and the bound `1 + (2 - 1) = 2` of the theorem
holds there with equality. -/
theorem C1_fetched_counter_bound_witness :
    psD.fetched_num = 2 ∧ psD.fetched_num ≤ 1 + (2 - 1) :=
  ⟨by decide, C1_fetched_counter_bound 2 1 0 (by decide) (by decide) psD psD_reachable⟩

/-- C6: within one Downloader-type pool instance during one run, the
sequential output indices assigned to accepted tasks (the ghost log
`claimed`, recorded in the order the pool's lock was acquired for the
counter increment) are strictly increasing in claim order and pairwise
distinct, in every reachable state of every interleaving. -/
theorem C6_claimed_indices_increasing (T : Nat) (mx off : Int) (s : PoolState T)
    (h : PoolReachable T mx off s) :
    List.Pairwise (· < ·) s.claimed ∧ List.Pairwise (· ≠ ·) s.claimed := by
  have hinv := claimedInv_reachable h
  exact ⟨hinv.1, hinv.1.imp (fun hlt => ne_of_lt hlt)⟩

/-- Witness for C6: in the concrete two-worker interleaving the claimed
index log is `[1, 2]`, strictly increasing and distinct. -/
theorem C6_claimed_indices_increasing_witness :
    psD.claimed = [1, 2] ∧
      (List.Pairwise (· < ·) psD.claimed ∧ List.Pairwise (· ≠ ·) psD.claimed) :=
  ⟨by decide, C6_claimed_indices_increasing 2 1 0 psD psD_reachable⟩

/-- C3: a task whose fetch raises a transient failure on every attempt, run
with `max_retry = 3` and the `reach_max_num` signal unset, performs exactly
3 fetch attempts and ends with `success = false` and `filename = None`
(the counter and flag are untouched). -/
theorem C3_transient_retry_bound (fetch : Nat → Option Resp)
    (keep : Task → Resp → Bool × Task) (getFilename : Nat → Task → String)
    (max_num : Int) (t : Task) (fetched : Nat)
    (hf : ∀ n, fetch n = none) :
    download fetch keep getFilename max_num 3 t fetched false
      = ⟨{ t with success := false, filename := none }, fetched, false, 3⟩ := by
  unfold download
  simp [downloadGo, hf]

/-- Witness for C3: a concrete always-raising fetch with `max_retry = 3`
makes 3 attempts and leaves the task failed and unnamed. -/
theorem C3_transient_retry_bound_witness :
    download (fun _ => none) base_keep_file (fun n t => get_filename n 0 "jpg" t) 10 3
        ⟨"/a.jpg", false, none, none⟩ 0 false
      = ⟨⟨"/a.jpg", false, none, none⟩, 0, false, 3⟩ :=
  C3_transient_retry_bound (fun _ => none) base_keep_file
    (fun n t => get_filename n 0 "jpg" t) 10 ⟨"/a.jpg", false, none, none⟩ 0 (fun _ => rfl)

theorem image_keep_file_preserves (mn mx : Option (Nat × Nat)) (t : Task) (r : Resp) :
    (image_keep_file mn mx t r).2.success = t.success ∧
    (image_keep_file mn mx t r).2.filename = t.filename ∧
    (image_keep_file mn mx t r).2.file_url_path = t.file_url_path := by
  rcases r with ⟨st, d⟩
  cases d with
  | fail => simp [image_keep_file]
  | ok sz => cases mn <;> cases mx <;> simp [image_keep_file] <;> split_ifs <;> simp

/-- Counterexample to C2 as stated: in the URL-only `URLCollector` variant a
task whose fetch-and-validate is rejected on the first attempt IS retried:
with `max_retry = 3` and the validation failing every time (e.g. the URL
always returns a non-2xx status), 3 attempts are made, not 1. -/
theorem C2_policy_rejection_cex :
    (urlc_download (fun _ => false) 3 "u" ⟨"/x.php", false, none, none⟩
        ⟨0, [], none, false, 10⟩).2.2 = 3 ∧
    (urlc_download (fun _ => false) 3 "u" ⟨"/x.php", false, none, none⟩
        ⟨0, [], none, false, 10⟩).2.2 ≠ 1 := by
  constructor <;> decide

/-- C2 (amended): in the byte-saving `Downloader` variant, a task whose
first fetch returns a non-2xx status or fails the keep-predicate performs
exactly 1 fetch attempt and ends with `success = false` — policy rejections
are never retried there.  The URL-only `URLCollector` variant does NOT
preserve this: a failed validation is retried until it succeeds or
`max_retry` attempts are exhausted, so a task rejected on every attempt
with `max_retry = 3` performs exactly 3 attempts (and ends with
`success = false`). -/
theorem C2_policy_rejection_amended :
    (∀ (fetch : Nat → Option Resp) (mn mx : Option (Nat × Nat))
        (getFilename : Nat → Task → String) (max_num : Int) (max_retry : Nat)
        (t : Task) (fetched : Nat) (r : Resp),
      fetch 0 = some r →
      reach_max_num false max_num fetched = false →
      (r.status_code ≠ 200 ∨
        (image_keep_file mn mx { t with success := false, filename := none } r).1 = false) →
      1 ≤ max_retry →
      (download fetch (image_keep_file mn mx) getFilename max_num max_retry t
          fetched false).attempts = 1 ∧
      (download fetch (image_keep_file mn mx) getFilename max_num max_retry t
          fetched false).task.success = false)
    ∧ (∀ valid : Nat → Bool, (∀ n, valid n = false) →
        ∀ (url : String) (t : Task) (st : UrlcState),
          (urlc_download valid 3 url t st).2.2 = 3 ∧
          (urlc_download valid 3 url t st).1.success = false) := by
  constructor
  · intro fetch mn mx getFilename max_num max_retry t fetched r h0 hmax hrej hretry
    obtain ⟨mr, rfl⟩ : ∃ mr, max_retry = mr + 1 :=
      ⟨max_retry - 1, by omega⟩
    unfold download
    by_cases hst : r.status_code = 200
    · rcases hrej with h | h
      · exact absurd hst h
      · rcases hk : image_keep_file mn mx { t with success := false, filename := none } r
          with ⟨b, t1⟩
        have hb : b = false := by rw [hk] at h; exact h
        subst hb
        have hpres := image_keep_file_preserves mn mx
          { t with success := false, filename := none } r
        rw [hk] at hpres
        simp [downloadGo, h0, hmax, hst, hk]
        exact hpres.1
    · simp [downloadGo, h0, hmax, hst]
  · intro valid hv url t st
    simp [urlc_download, urlc_validate, hv]

/-- Witness for the amended C2: a concrete 404 response is rejected by the
`Downloader` in a single attempt, and a concrete never-valid URL is retried
3 times by the `URLCollector`. -/
theorem C2_policy_rejection_amended_witness :
    ((download (fun _ => some ⟨404, .fail⟩) (image_keep_file none none)
        (fun n t => image_get_filename n 0 "jpg" t) 10 3
        ⟨"/a.jpg", false, none, none⟩ 0 false).attempts = 1 ∧
      (download (fun _ => some ⟨404, .fail⟩) (image_keep_file none none)
        (fun n t => image_get_filename n 0 "jpg" t) 10 3
        ⟨"/a.jpg", false, none, none⟩ 0 false).task.success = false) ∧
    ((urlc_download (fun _ => false) 3 "v" ⟨"/b.png", false, none, none⟩
        ⟨0, [], none, false, 5⟩).2.2 = 3 ∧
      (urlc_download (fun _ => false) 3 "v" ⟨"/b.png", false, none, none⟩
        ⟨0, [], none, false, 5⟩).1.success = false) :=
  ⟨C2_policy_rejection_amended.1 (fun _ => some ⟨404, .fail⟩) none none
      (fun n t => image_get_filename n 0 "jpg" t) 10 3
      ⟨"/a.jpg", false, none, none⟩ 0 ⟨404, .fail⟩ rfl (by decide)
      (Or.inl (by decide)) (by decide),
    C2_policy_rejection_amended.2 (fun _ => false) (fun _ => rfl) "v"
      ⟨"/b.png", false, none, none⟩ ⟨0, [], none, false, 5⟩⟩

/-- Counterexample to C4 as stated: on a queue timeout with `parser_exited`
unset but `fetched_num = 1 > 0`, the worker does NOT log-and-continue — it
exits the loop ("no more images available", downloader.py lines 195-197). -/
theorem C4_timeout_cex :
    worker_iter false false none 0 0 1 QueueEvent.queueEmpty
        = IterOutcome.exitNoMoreImages ∧
    worker_iter false false none 0 0 1 QueueEvent.queueEmpty
        ≠ IterOutcome.continueLoop := by
  constructor <;> decide

/-- C4 (amended): when a blocking get on the input queue times out (and
neither the `reach_max_num` flag nor the idle condition fired first), the
worker continues its loop exactly when `parser_exited` is unset AND the
pool has fetched nothing yet; it exits when `parser_exited` is set, and it
also exits — "no more images available" — when `parser_exited` is unset but
`fetched_num > 0`. -/
theorem C4_timeout_exit_amended (parser_exited : Bool) (fetched_num : Nat)
    (now last : ℚ) :
    (worker_iter false parser_exited none now last fetched_num QueueEvent.queueEmpty
        = IterOutcome.continueLoop ↔ parser_exited = false ∧ fetched_num = 0)
    ∧ (worker_iter false parser_exited none now last fetched_num QueueEvent.queueEmpty
        = IterOutcome.exitParserDone ↔ parser_exited = true)
    ∧ (worker_iter false parser_exited none now last fetched_num QueueEvent.queueEmpty
        = IterOutcome.exitNoMoreImages ↔ parser_exited = false ∧ 0 < fetched_num) := by
  unfold worker_iter
  cases parser_exited
  · by_cases h : fetched_num = 0
    · subst h; simp
    · simp [h, Nat.pos_of_ne_zero h]
  · simp

/-- C5: with `max_idle_time = 2` and `last_download_time = 0` (the worker's
start time, which in the claim's scenario is also the moment its only task
was accepted), a loop iteration at time `now` exits via the idle condition
exactly when the `reach_max_num` flag is unset, `now` is strictly past 2
(hence at or after 2, never before), and the pool has fetched at least one
resource — so a pool that has accepted no task never idle-exits. -/
theorem C5_idle_exit (signal_reach_max parser_exited : Bool) (now : ℚ)
    (fetched_num : Nat) (ev : QueueEvent) :
    worker_iter signal_reach_max parser_exited (some 2) now 0 fetched_num ev
        = IterOutcome.exitIdle
      ↔ signal_reach_max = false ∧ 2 < now ∧ 0 < fetched_num := by
  unfold worker_iter
  simp only [gt_iff_lt, sub_zero]
  cases signal_reach_max
  · by_cases hn : 2 < now <;> by_cases hf : 0 < fetched_num <;>
      simp [hn, hf] <;> cases ev <;> simp <;> split_ifs <;> simp_all
  · simp

theorem urlc_download_urls (u : String) (st : UrlcState) :
    ((urlc_download (fun _ => true) 3 u ⟨u, false, none, none⟩ st).2.1).urls
      = st.urls ++ [u] := by
  simp [urlc_download, urlc_validate]
  split_ifs <;> simp [save_urls]

theorem urlc_run_accumulates (urls : List String) :
    ∀ st : UrlcState, (urlc_run (fun _ => true) 3 urls st).urls = st.urls ++ urls := by
  induction urls with
  | nil => intro st; simp [urlc_run]
  | cons u us ih =>
      intro st
      have hrun : urlc_run (fun _ => true) 3 (u :: us) st
          = urlc_run (fun _ => true) 3 us
              ((urlc_download (fun _ => true) 3 u ⟨u, false, none, none⟩ st).2.1) := rfl
      rw [hrun, ih, urlc_download_urls]
      simp

/-- C7: the URL-collection variant flushes its accepted-locator list to the
output file on every 10th accepted item and once more at shutdown, so
accepting any sequence of N valid locators and reading back the final
artifact yields exactly those N locators in acceptance order (and, as a
concrete instance of the periodic flush, after 11 accepted items and no
shutdown the file holds exactly the first 10). -/
theorem C7_persistence_roundtrip (urls : List String) (max_num : Int) :
    (urlc_shutdown (urlc_run (fun _ => true) 3 urls
        ⟨0, [], none, false, max_num⟩)).output_file_contents = some urls
    ∧ (urlc_run (fun _ => true) 3
        ["a1", "a2", "a3", "a4", "a5", "a6", "a7", "a8", "a9", "a10", "a11"]
        ⟨0, [], none, false, 0⟩).output_file_contents
      = some ["a1", "a2", "a3", "a4", "a5", "a6", "a7", "a8", "a9", "a10"] := by
  constructor
  · unfold urlc_shutdown save_urls
    simp [urlc_run_accumulates]
  · decide

/-- Counterexample to C8 as stated: with an invalid (non-integer) offset,
the error is raised only inside `downloader.start`, by which time the
feeder and parser worker threads have already started — not before any
worker thread of any stage. -/
theorem C8_offset_error_cex :
    run_setup HeadersArg.noneArg OffsetArg.notInt
        = ([Stage.feeder, Stage.parser], some ConfigError.offsetNotInt)
    ∧ (run_setup HeadersArg.noneArg OffsetArg.notInt).1 ≠ [] := by
  constructor <;> decide

/-- C8 (amended): a non-dict headers argument raises synchronously at setup
before any stage's threads start; a non-integer output-index offset raises
synchronously inside `downloader.start` during `crawl` — before any
downloader worker starts, but after the feeder and parser threads have
already been started. -/
theorem C8_config_errors_amended :
    (∀ off, run_setup HeadersArg.notDict off = ([], some ConfigError.headersNotDict))
    ∧ (run_setup HeadersArg.noneArg OffsetArg.notInt
          = ([Stage.feeder, Stage.parser], some ConfigError.offsetNotInt)
      ∧ Stage.downloader ∉ (run_setup HeadersArg.noneArg OffsetArg.notInt).1)
    ∧ (∀ n, run_setup HeadersArg.dict (OffsetArg.int n)
          = ([Stage.feeder, Stage.parser, Stage.downloader], none)) := by
  refine ⟨fun off => ?_, ⟨by decide, by decide⟩, fun n => rfl⟩
  cases off <;> rfl

theorem download_accept_step (fetch : Nat → Option Resp)
    (keep : Task → Resp → Bool × Task) (getFilename : Nat → Task → String)
    (max_num : Int) (mr : Nat) (t : Task) (fetched : Nat) (r : Resp)
    (h0 : fetch 0 = some r) (hst : r.status_code = 200)
    (hmax : reach_max_num false max_num fetched = false)
    (hk : (keep { t with success := false, filename := none } r).1 = true) :
    download fetch keep getFilename max_num (mr + 1) t fetched false
      = ⟨{ (keep { t with success := false, filename := none } r).2 with
            success := true,
            filename := some (getFilename (fetched + 1)
              (keep { t with success := false, filename := none } r).2) },
          fetched + 1, false, 1⟩ := by
  unfold download
  rcases hkp : keep { t with success := false, filename := none } r with ⟨b, t1⟩
  have hb : b = true := by rw [hkp] at hk; exact hk
  subst hb
  simp [downloadGo, h0, hmax, hst, hkp]

/-- C9: on an accepted fetch (first attempt succeeds with status 200, the
keep-predicate keeps it, no maximum reached) the pool's fetched counter is
incremented by one and the assigned output name is the zero-padded decimal
of `(counter + file_idx_offset)` with the extension taken from the URL-path
suffix when its lowercase form is a recognized image extension, else the
configured default extension (image variant of `get_filename`). -/
theorem C9_accept_naming (fetch : Nat → Option Resp) (mn mx : Option (Nat × Nat))
    (max_num off : Int) (dext : String) (mr : Nat) (t : Task) (fetched : Nat) (r : Resp)
    (h0 : fetch 0 = some r) (hst : r.status_code = 200)
    (hmax : reach_max_num false max_num fetched = false)
    (hk : (image_keep_file mn mx { t with success := false, filename := none } r).1 = true) :
    (download fetch (image_keep_file mn mx)
        (fun n t1 => image_get_filename n off dext t1)
        max_num (mr + 1) t fetched false).fetched_num = fetched + 1
    ∧ (download fetch (image_keep_file mn mx)
        (fun n t1 => image_get_filename n off dext t1)
        max_num (mr + 1) t fetched false).task.success = true
    ∧ (download fetch (image_keep_file mn mx)
        (fun n t1 => image_get_filename n off dext t1)
        max_num (mr + 1) t fetched false).task.filename
      = some (format06d ((fetched : Int) + 1 + off) ++ "." ++
          (if t.file_url_path.data.contains '.'
              && image_extensions.contains (String.mk
                (((splitDot t.file_url_path.data).getLastD dext.data).map Char.toLower))
            then String.mk ((splitDot t.file_url_path.data).getLastD dext.data)
            else dext)) := by
  have h := download_accept_step fetch (image_keep_file mn mx)
    (fun n t1 => image_get_filename n off dext t1) max_num mr t fetched r h0 hst hmax hk
  have hpath := (image_keep_file_preserves mn mx
    { t with success := false, filename := none } r).2.2
  have hfn : (download fetch (image_keep_file mn mx)
      (fun n t1 => image_get_filename n off dext t1)
      max_num (mr + 1) t fetched false).task.filename
      = some (image_get_filename (fetched + 1) off dext
          (image_keep_file mn mx { t with success := false, filename := none } r).2) := by
    rw [h]
  refine ⟨by rw [h], by rw [h], ?_⟩
  rw [hfn]
  simp only [image_get_filename]
  rw [hpath]
  have hcast : ((fetched + 1 : Nat) : Int) + off = (fetched : Int) + 1 + off := by
    push_cast
    ring
  rw [hcast]
  by_cases hc : '.' ∈ t.file_url_path.data <;>
    by_cases hr : String.mk
        (((splitDot t.file_url_path.data).getLastD dext.data).map Char.toLower)
          ∈ image_extensions <;>
      simp [hc, hr]

/-- Witness for C9: fetching `/img/photo.JPG` with counter 6 and offset 4
accepts, bumps the counter to 7 and names the file `000011.JPG` (suffix
`JPG` recognized case-insensitively and kept in its original case). -/
theorem C9_accept_naming_witness :
    (download (fun _ => some ⟨200, DecodeResult.ok (10, 10)⟩)
        (image_keep_file none none) (fun n t1 => image_get_filename n 4 "jpg" t1)
        100 3 ⟨"/img/photo.JPG", false, none, none⟩ 6 false).fetched_num = 7
    ∧ (download (fun _ => some ⟨200, DecodeResult.ok (10, 10)⟩)
        (image_keep_file none none) (fun n t1 => image_get_filename n 4 "jpg" t1)
        100 3 ⟨"/img/photo.JPG", false, none, none⟩ 6 false).task.success = true
    ∧ (download (fun _ => some ⟨200, DecodeResult.ok (10, 10)⟩)
        (image_keep_file none none) (fun n t1 => image_get_filename n 4 "jpg" t1)
        100 3 ⟨"/img/photo.JPG", false, none, none⟩ 6 false).task.filename
      = some "000011.JPG" := by
  have h := C9_accept_naming (fun _ => some ⟨200, DecodeResult.ok (10, 10)⟩)
    none none 100 4 "jpg" 2 ⟨"/img/photo.JPG", false, none, none⟩ 6
    ⟨200, DecodeResult.ok (10, 10)⟩ rfl rfl (by decide) (by decide)
  refine ⟨h.1, h.2.1, ?_⟩
  rw [h.2.2]
  decide

/-- C10: whenever the fetched payload decodes as a valid image, the image
keep-predicate records the decoded dimensions in the task's `img_size`
field before applying the min/max size filters, so a task rejected for
violating the bounds is returned mutated with the measured dimensions (and
the surrounding download leaves it `success = false` and uncounted). -/
theorem C10_size_reject_records_dimensions :
    (∀ (mn mx : Option (Nat × Nat)) (t : Task) (status : Nat) (sz : Nat × Nat),
      (image_keep_file mn mx t ⟨status, DecodeResult.ok sz⟩).2.img_size = some sz)
    ∧ ((image_keep_file (some (2, 2)) none ⟨"/a.png", false, none, none⟩
          ⟨200, DecodeResult.ok (1, 1)⟩).1 = false
      ∧ (image_keep_file (some (2, 2)) none ⟨"/a.png", false, none, none⟩
          ⟨200, DecodeResult.ok (1, 1)⟩).2.img_size = some (1, 1))
    ∧ ((download (fun _ => some ⟨200, DecodeResult.ok (1, 1)⟩)
          (image_keep_file (some (2, 2)) none)
          (fun n t1 => image_get_filename n 0 "jpg" t1) 100 3
          ⟨"/a.png", false, none, none⟩ 0 false).task.success = false
      ∧ (download (fun _ => some ⟨200, DecodeResult.ok (1, 1)⟩)
          (image_keep_file (some (2, 2)) none)
          (fun n t1 => image_get_filename n 0 "jpg" t1) 100 3
          ⟨"/a.png", false, none, none⟩ 0 false).task.img_size = some (1, 1)
      ∧ (download (fun _ => some ⟨200, DecodeResult.ok (1, 1)⟩)
          (image_keep_file (some (2, 2)) none)
          (fun n t1 => image_get_filename n 0 "jpg" t1) 100 3
          ⟨"/a.png", false, none, none⟩ 0 false).fetched_num = 0) := by
  refine ⟨?_, by decide, by decide⟩
  intro mn mx t status sz
  cases mn <;> cases mx <;> simp [image_keep_file] <;> split_ifs <;> simp

end ICrawler
